import Mathlib

/-!
# Verification of `instagram_scraper.py`

Shallow embedding of the Instagram post-counting script.  Python `datetime`
values are modelled as records of calendar fields compared lexicographically
(the comparison Python's `datetime` uses); wall-clock times from `time.time()`
are modelled as exact rationals; exceptions are modelled by an explicit
`PyExc` type and fallible operations return `Except PyExc`.
-/

set_option autoImplicit false

/-- `SESSION_DURATION = 86400` (24 hours in seconds), from the script's
constants section. -/
def SESSION_DURATION : ℚ := 86400

/-- Model of a naive Python `datetime`: the calendar fields.  Python compares
`datetime` values lexicographically by these fields, which the functions
`PyDateTime.ltb` / `PyDateTime.leb` below reproduce. -/
structure PyDateTime where
  year : Nat
  month : Nat
  day : Nat
  hour : Nat
  minute : Nat
  second : Nat
  microsecond : Nat
deriving Repr, DecidableEq

/-- `datetime(year, month, day)` with the time-of-day fields zero, as built by
`datetime(year, month, 1)` in the script. -/
def pyDate (year month day : Nat) : PyDateTime :=
  ⟨year, month, day, 0, 0, 0, 0⟩

/-- Strict comparison of naive datetimes: field-lexicographic, exactly
Python's `datetime.__lt__`. -/
def PyDateTime.ltb (a b : PyDateTime) : Bool :=
  if a.year ≠ b.year then decide (a.year < b.year)
  else if a.month ≠ b.month then decide (a.month < b.month)
  else if a.day ≠ b.day then decide (a.day < b.day)
  else if a.hour ≠ b.hour then decide (a.hour < b.hour)
  else if a.minute ≠ b.minute then decide (a.minute < b.minute)
  else if a.second ≠ b.second then decide (a.second < b.second)
  else decide (a.microsecond < b.microsecond)

/-- Non-strict comparison of naive datetimes (`datetime.__le__`). -/
def PyDateTime.leb (a b : PyDateTime) : Bool :=
  a.ltb b || decide (a = b)

theorem PyDateTime.ltb_self (a : PyDateTime) : a.ltb a = false := by
  simp [PyDateTime.ltb]

theorem PyDateTime.leb_self (a : PyDateTime) : a.leb a = true := by
  simp [PyDateTime.leb]

/-- A media post as used by the script: its timestamp and its share code.
`tz_aware` records whether `taken_at.tzinfo` was set; the script strips the
timezone (`post.taken_at.replace(tzinfo=None)`), which keeps the wall-clock
fields, so the comparison key is `taken_at` in either case. -/
structure Post where
  taken_at : PyDateTime
  tz_aware : Bool
  code : String
deriving Repr, DecidableEq

/-- `post.taken_at.replace(tzinfo=None) if post.taken_at.tzinfo else
post.taken_at`: the naive wall-clock timestamp of the post. -/
def postDate (p : Post) : PyDateTime :=
  p.taken_at

/-- `start_date = datetime(year, month, 1)` from `count_posts_for_month`. -/
def startDate (year month : Nat) : PyDateTime :=
  pyDate year month 1

/-- `end_date = datetime(year, month + 1, 1) if month < 12 else
datetime(year + 1, 1, 1)` from `count_posts_for_month`. -/
def endDate (year month : Nat) : PyDateTime :=
  if month < 12 then pyDate year (month + 1) 1 else pyDate (year + 1) 1 1

/-- The loop's filter condition `start_date <= post_date < end_date`. -/
def inMonthb (year month : Nat) (p : Post) : Bool :=
  (startDate year month).leb (postDate p) && (postDate p).ltb (endDate year month)

/-- `f"https://www.instagram.com/p/{post.code}/"`. -/
def postLink (p : Post) : String :=
  "https://www.instagram.com/p/" ++ p.code ++ "/"

/-- `count_posts_for_month(user_id, year, month, client)` with the fetched
post list made explicit (`client.user_medias(user_id, amount=1000)` supplies
`posts`; its fallibility is handled at the call site in `manual_search`).
The loop accumulates a count and an ordered list of permalinks. -/
def count_posts_for_month (year month : Nat) (posts : List Post) :
    Nat × List String :=
  posts.foldl
    (fun acc post =>
      if inMonthb year month post then (acc.1 + 1, acc.2 ++ [postLink post])
      else acc)
    (0, [])

/-- Python's substring test `pat in s` on character lists: some suffix of the
scanned list starts with `pat`. -/
def listContains (pat : List Char) : List Char → Bool
  | [] => pat.isEmpty
  | c :: rest => pat.isPrefixOf (c :: rest) || listContains pat rest

/-- Python's `pat in s` for strings. -/
def strContains (s pat : String) : Bool :=
  listContains pat.toList s.toList

/-- Worker for `pySplitlines`: splits at `\n`, `\r` and `\r\n`, with no empty
trailing line for a terminal line break (Python `str.splitlines`). -/
def splitlinesGo : List Char → List Char → List (List Char)
  | [], [] => []
  | [], acc => [acc.reverse]
  | '\r' :: '\n' :: rest, acc => acc.reverse :: splitlinesGo rest []
  | '\r' :: rest, acc => acc.reverse :: splitlinesGo rest []
  | '\n' :: rest, acc => acc.reverse :: splitlinesGo rest []
  | c :: rest, acc => splitlinesGo rest (c :: acc)

/-- Python `text.splitlines()`. -/
def pySplitlines (text : String) : List String :=
  (splitlinesGo text.toList []).map (fun l => ⟨l⟩)

/-- Worker for `pySplitWs`: accumulate the current part, closing it at each
whitespace character and discarding empty parts. -/
def splitWsGo : List Char → List Char → List (List Char)
  | [], [] => []
  | [], acc => [acc.reverse]
  | c :: rest, acc =>
    if c.isWhitespace then
      if acc.isEmpty then splitWsGo rest [] else acc.reverse :: splitWsGo rest []
    else splitWsGo rest (c :: acc)

/-- Python `line.split()` with no argument: split on whitespace runs,
discarding empty pieces. -/
def pySplitWs (s : String) : List String :=
  (splitWsGo s.toList []).map (fun l => ⟨l⟩)

/-- Worker for `pySplitOn`: scan left to right, closing a part at each
non-overlapping occurrence of the (non-empty) separator.  The fuel argument
(instantiated with the length of the scanned list) only makes the recursion
structural; it never runs out. -/
def splitOnGo (sep : List Char) : Nat → List Char → List Char → List (List Char)
  | _, [], acc => [acc.reverse]
  | 0, l, acc => [acc.reverse ++ l]
  | fuel + 1, c :: rest, acc =>
    if !sep.isEmpty && sep.isPrefixOf (c :: rest) then
      acc.reverse :: splitOnGo sep fuel ((c :: rest).drop sep.length) []
    else splitOnGo sep fuel rest (c :: acc)

/-- Python `s.split(sep)` for a non-empty separator (for empty `sep` Python
raises `ValueError`; the script only splits on `'IG:'`). -/
def pySplitOn (s sep : String) : List String :=
  (splitOnGo sep.toList s.toList.length s.toList []).map (fun l => ⟨l⟩)

/-- Python `s.strip()`: remove leading and trailing whitespace. -/
def pyStrip (s : String) : String :=
  ⟨((s.toList.dropWhile Char.isWhitespace).reverse.dropWhile
      Char.isWhitespace).reverse⟩

/-- Python `s.replace('/', '')`: drop every slash. -/
def removeSlashes (s : String) : String :=
  ⟨s.toList.filter (fun c => c != '/')⟩

/-- One character of the class `[\w.]` (ASCII reading of Python's `\w`). -/
def isWordOrDot (c : Char) : Bool :=
  c.isAlphanum || c == '_' || c == '.'

/-- Python `re.match(r'^[\w.]+$', s)` viewed as a boolean: the whole string is
one or more `[\w.]` characters. -/
def matchesSimpleUsername (s : String) : Bool :=
  !s.isEmpty && s.toList.all isWordOrDot

/-- Python `re.search(r"instagram\.com/([^/?]+)", url)` on a character list:
at the leftmost position where the literal `instagram.com/` is followed by at
least one character other than `/` or `?`, return the greedy capture
(`takeWhile` of such characters); otherwise keep scanning. -/
def igSearchList : List Char → Option String
  | [] => none
  | c :: rest =>
    if "instagram.com/".toList.isPrefixOf (c :: rest) then
      let captured :=
        ((c :: rest).drop "instagram.com/".length).takeWhile
          (fun ch => ch != '/' && ch != '?')
      if captured.isEmpty then igSearchList rest else some ⟨captured⟩
    else igSearchList rest

/-- `extract_ig_username(url)` for string input (the only kind produced by the
caller; the non-string branch of the source returns `None`). -/
def extract_ig_username (url : String) : Option String :=
  igSearchList url.toList

/-- Body of the inner loop of `extract_ig_usernames`: the usernames one
whitespace-delimited part contributes, in order. -/
def usernamesOfPart (part : String) : List String :=
  if strContains part "instagram.com" then
    match extract_ig_username part with
    | some username => [username]
    | none => []
  else if strContains part "IG:" then
    let username := removeSlashes (pyStrip ((pySplitOn part "IG:").getLastD ""))
    if username != "" then [username] else []
  else if matchesSimpleUsername (pyStrip part) then [pyStrip part]
  else []

/-- `extract_ig_usernames(text)`: split into lines, split each line on
whitespace, collect the usernames each part yields, and finally
`list(filter(None, usernames))`. -/
def extract_ig_usernames (text : String) : List String :=
  ((pySplitlines text).flatMap
      (fun line => (pySplitWs line).flatMap usernamesOfPart)).filter
    (fun u => u != "")

/-- The `instagrapi` exceptions the script imports, plus a catch-all `other`
for any remaining `Exception`.  Each carries its `str()` message. -/
inductive PyExc where
  | badPassword (msg : String)
  | loginRequired (msg : String)
  | challengeRequired (msg : String)
  | feedbackRequired (msg : String)
  | pleaseWaitFewMinutes (msg : String)
  | userNotFound (msg : String)
  | reloginAttemptExceeded (msg : String)
  | recaptchaChallengeForm (msg : String)
  | selectContactPointRecoveryForm (msg : String)
  | other (msg : String)
deriving Repr, DecidableEq

instance {ε α : Type} [DecidableEq ε] [DecidableEq α] :
    DecidableEq (Except ε α) := fun a b =>
  match a, b with
  | .ok x, .ok y =>
    if h : x = y then .isTrue (by rw [h])
    else .isFalse (fun hh => h (Except.ok.inj hh))
  | .error x, .error y =>
    if h : x = y then .isTrue (by rw [h])
    else .isFalse (fun hh => h (Except.error.inj hh))
  | .ok _, .error _ => .isFalse (fun hh => Except.noConfusion hh)
  | .error _, .ok _ => .isFalse (fun hh => Except.noConfusion hh)

/-- True unless the exception is a `UserNotFound` (the `except UserNotFound`
clause fires exactly on that class). -/
def notUserNotFound : PyExc → Bool
  | .userNotFound _ => false
  | _ => true

/-- The observable client calls `handle_exception` makes, in order. -/
inductive ClientAction where
  | setProxy
  | rebuildSettings
  | updateSettings
  | relogin
  | challengeResolve
deriving Repr, DecidableEq

/-- The client-side data `handle_exception` reads: `client.relogin_attempt`,
`client.last_json.get("challenge", {}).get("api_path")`,
`client.last_json["feedback_message"]`, and the outcome of
`client.challenge_resolve(client.last_json)` (which may itself raise). -/
structure ClientState where
  relogin_attempt : Nat
  challenge_api_path : Option String
  feedback_message : String
  challenge_resolve : Except PyExc Unit
deriving Repr, DecidableEq

/-- What a call to `handle_exception` does: the client calls it performs, the
`Account.freeze` calls it makes (message and cooldown duration in seconds,
`hours*3600 + days*86400`; a bare `freeze(message)` yields duration `0`), and
whether it returns normally (`.ok`) or raises (`.error e`). -/
structure HEResult where
  actions : List ClientAction
  freezes : List (String × Nat)
  outcome : Except PyExc Unit
deriving Repr, DecidableEq

/-- `duration = hours * 3600 + days * 86400` from `Account.freeze`. -/
def freezeDuration (hours days : Nat) : Nat :=
  hours * 3600 + days * 86400

/-- `Account.get_client.handle_exception(client, e)`, the failure policy.
Transcribed branch by branch from the source.  Note that only the
`BadPassword` (first attempt), `LoginRequired` and `ChallengeRequired`
branches return before the trailing `raise e`; the `FeedbackRequired` and
`PleaseWaitFewMinutes` branches fall through to it, so they freeze and then
re-raise. -/
def handle_exception (st : ClientState) (e : PyExc) : HEResult :=
  match e with
  | .badPassword m =>
    if st.relogin_attempt > 0 then
      ⟨[.setProxy], [("Manual login required", freezeDuration 0 7)],
        .error (.reloginAttemptExceeded m)⟩
    else
      ⟨[.setProxy, .rebuildSettings, .updateSettings], [], .ok ()⟩
  | .loginRequired _ =>
    ⟨[.relogin, .updateSettings], [], .ok ()⟩
  | .challengeRequired _ =>
    if st.challenge_api_path = some "/challenge/" then
      ⟨[.setProxy, .rebuildSettings], [], .ok ()⟩
    else
      match st.challenge_resolve with
      | .ok _ => ⟨[.challengeResolve, .updateSettings], [], .ok ()⟩
      | .error (.challengeRequired m2) =>
        ⟨[.challengeResolve],
          [("Manual Challenge Required", freezeDuration 0 2)],
          .error (.challengeRequired m2)⟩
      | .error (.selectContactPointRecoveryForm m2) =>
        ⟨[.challengeResolve], [(m2, freezeDuration 0 4)],
          .error (.selectContactPointRecoveryForm m2)⟩
      | .error (.recaptchaChallengeForm m2) =>
        ⟨[.challengeResolve], [(m2, freezeDuration 0 4)],
          .error (.recaptchaChallengeForm m2)⟩
      | .error e2 => ⟨[.challengeResolve], [], .error e2⟩
  | .feedbackRequired _ =>
    let message := st.feedback_message
    if strContains message "This action was blocked. Please try again later" then
      ⟨[], [(message, freezeDuration 12 0)], .error e⟩
    else if strContains message
        "We restrict certain activity to protect our community" then
      ⟨[], [(message, freezeDuration 12 0)], .error e⟩
    else if strContains message "Your account has been temporarily blocked" then
      ⟨[], [(message, freezeDuration 0 0)], .error e⟩
    else ⟨[], [], .error e⟩
  | .pleaseWaitFewMinutes m =>
    ⟨[], [(m, freezeDuration 1 0)], .error (.pleaseWaitFewMinutes m)⟩
  | _ => ⟨[], [], .error e⟩

/-- `datetime(year, month, 1).strftime('%B')`: the English month name, empty
for an argument outside 1..12 (Python would raise there; the script only
passes months in range). -/
def monthName : Nat → String
  | 1 => "January"
  | 2 => "February"
  | 3 => "March"
  | 4 => "April"
  | 5 => "May"
  | 6 => "June"
  | 7 => "July"
  | 8 => "August"
  | 9 => "September"
  | 10 => "October"
  | 11 => "November"
  | 12 => "December"
  | _ => ""

/-- One result-row dictionary, keys `Instagram ID`, `Post Count`, `Year`,
`Month`, `Links`. -/
structure Row where
  instagram_id : String
  post_count : Nat
  year : String
  month : String
  links : String
deriving Repr, DecidableEq

/-- The per-month row appended on the success path of `manual_search`. -/
def monthRow (username : String) (year month : Nat) (post_count : Nat)
    (post_links : List String) : Row :=
  { instagram_id := username
    post_count := post_count
    year := toString year
    month := if monthName month = "" then "-" else monthName month
    links := String.intercalate " | " post_links }

/-- The placeholder row appended by the `except UserNotFound` clause. -/
def userNotFoundRow (username : String) : Row :=
  ⟨username, 0, "-", "-", "User not found"⟩

/-- The placeholder row appended by the generic `except Exception` clause. -/
def errorRow (username : String) : Row :=
  ⟨username, 0, "-", "-", "Error occurred"⟩

/-- The client handle as `manual_search` uses it: the two fallible API calls
and the state read by its attached failure policy `handle_exception`. -/
structure PyClient where
  user_id_from_username : String → Except PyExc Nat
  user_medias : Nat → Nat → Except PyExc (List Post)
  state : ClientState

/-- Python `range(a, b)`: the integers `a, a+1, ..., b-1`, empty for
`b ≤ a`. -/
def pyRange (a b : Nat) : List Nat :=
  List.range' a (b - a)

/-- The `(year, month)` pairs visited by the nested loops of `manual_search`:
`for year in range(start_year, end_year + 1): for month in
range(start_month if year == start_year else 1,
end_month + 1 if year == end_year else 13)`. -/
def monthsFor (start_year start_month end_year end_month : Nat) :
    List (Nat × Nat) :=
  (pyRange start_year (end_year + 1)).flatMap (fun year =>
    (pyRange (if year = start_year then start_month else 1)
        (if year = end_year then end_month + 1 else 13)).map
      (fun month => (year, month)))

/-- The body of the `try` block of `manual_search` after the user id lookup:
process the months in order, appending one row per month, stopping at the
first exception (returned separately so the `except` clauses can dispatch on
it while keeping the rows already appended). -/
def runMonths (username : String) (user_id : Nat) (client : PyClient) :
    List (Nat × Nat) → List Row × Option PyExc
  | [] => ([], none)
  | (year, month) :: rest =>
    match client.user_medias user_id 1000 with
    | .error e => ([], some e)
    | .ok posts =>
      let r := count_posts_for_month year month posts
      let row := monthRow username year month r.1 r.2
      let next := runMonths username user_id client rest
      (row :: next.1, next.2)

/-- Dispatch of an exception raised inside the `try` of `manual_search`:
`except UserNotFound` appends the user-not-found placeholder row;
`except Exception` routes the exception through
`client.handle_exception(client, e)` — if that call itself raises, the new
exception propagates out of `manual_search`; if it returns, the generic
error placeholder row is appended. -/
def dispatchExc (username : String) (st : ClientState) (rows : List Row) :
    Option PyExc → Except PyExc (List Row)
  | none => .ok rows
  | some (.userNotFound _) => .ok (rows ++ [userNotFoundRow username])
  | some e =>
    match (handle_exception st e).outcome with
    | .ok _ => .ok (rows ++ [errorRow username])
    | .error e2 => .error e2

/-- `manual_search(username, start_year, start_month, end_year, end_month,
client)`.  A `.error` result models an exception escaping the function (which
happens exactly when the failure policy re-raises). -/
def manual_search (username : String)
    (start_year start_month end_year end_month : Nat) (client : PyClient) :
    Except PyExc (List Row) :=
  match client.user_id_from_username username with
  | .error e => dispatchExc username client.state [] (some e)
  | .ok user_id =>
    let r := runMonths username user_id client
      (monthsFor start_year start_month end_year end_month)
    dispatchExc username client.state r.1 r.2

/-- The `process_button` loop: walk the username list, skipping names already
in `processed_usernames`, extending the results with each `manual_search`
outcome.  The loop body has no exception handler, so an exception escaping
`manual_search` aborts the whole loop. -/
def processGo (start_year start_month end_year end_month : Nat)
    (client : PyClient) :
    List String → List String → Except PyExc (List Row)
  | [], _ => .ok []
  | username :: rest, processed =>
    if username ∈ processed then
      processGo start_year start_month end_year end_month client rest processed
    else
      match manual_search username start_year start_month end_year end_month
          client with
      | .error e => .error e
      | .ok rows =>
        match processGo start_year start_month end_year end_month client rest
            (username :: processed) with
        | .error e => .error e
        | .ok more => .ok (rows ++ more)

/-- The whole `Process All IDs` run over the extracted usernames. -/
def process_all (usernames : List String)
    (start_year start_month end_year end_month : Nat) (client : PyClient) :
    Except PyExc (List Row) :=
  processGo start_year start_month end_year end_month client usernames []

/-- `is_session_valid(session_file)`: the file system is abstracted to the
optional modification time of the session file, and `time.time()` to the
rational `now`. -/
def is_session_valid (now : ℚ) (mtime : Option ℚ) : Bool :=
  match mtime with
  | none => false
  | some t => decide (now - t < SESSION_DURATION)

/-- The init-path decision of the session-management block: restore a valid
session, else fresh network login when username, password and the button are
all supplied, else show the credentials prompt.  `hasClient` models
`'client' in st.session_state and st.session_state.client`. -/
inductive InitPath where
  | keepExisting
  | sessionRestore
  | freshLogin
  | promptError
deriving Repr, DecidableEq

/-- The branch structure of the session-initialization block
(`if 'client' not in st.session_state or not st.session_state.client: ...`).
Python truthiness of the credential strings is non-emptiness. -/
def sessionInit (hasClient : Bool) (username password : String)
    (login_button : Bool) (now : ℚ) (mtime : Option ℚ) : InitPath :=
  if hasClient then .keepExisting
  else if username != "" && is_session_valid now mtime then .sessionRestore
  else if username != "" && password != "" && login_button then .freshLogin
  else .promptError

/-- The run-end session-eviction condition: `is_session_valid(session_file)
and (time.time() - os.path.getmtime(session_file)) >= SESSION_DURATION`
guards `os.remove(session_file)`.  Short-circuiting makes the `getmtime`
call safe when the file is absent, which the `none` branch mirrors. -/
def runEndRemoves (now : ℚ) (mtime : Option ℚ) : Bool :=
  is_session_valid now mtime &&
    match mtime with
    | none => false
    | some t => decide (now - t ≥ SESSION_DURATION)

theorem count_posts_for_month_eq_filter (year month : Nat) (posts : List Post) :
    count_posts_for_month year month posts =
      ((posts.filter (inMonthb year month)).length,
        (posts.filter (inMonthb year month)).map postLink) := by
  suffices h : ∀ acc : Nat × List String,
      posts.foldl
        (fun acc post =>
          if inMonthb year month post then (acc.1 + 1, acc.2 ++ [postLink post])
          else acc) acc =
      (acc.1 + (posts.filter (inMonthb year month)).length,
        acc.2 ++ (posts.filter (inMonthb year month)).map postLink) by
    simpa [count_posts_for_month] using h (0, [])
  induction posts with
  | nil => intro acc; simp
  | cons p rest ih =>
    intro acc
    by_cases hp : inMonthb year month p
    · simp [hp, ih, List.filter_cons, Nat.add_comm, Nat.add_assoc, Nat.add_left_comm]
    · simp [hp, ih, List.filter_cons]

theorem pyDate_ltb_endDate (year month : Nat) :
    (pyDate year month 1).ltb (endDate year month) = true := by
  by_cases h : month < 12
  · simp [endDate, h, pyDate, PyDateTime.ltb]
  · simp [endDate, h, pyDate, PyDateTime.ltb]

theorem inMonthb_false_of_eq_endDate (year month : Nat) (p : Post)
    (h : postDate p = endDate year month) : inMonthb year month p = false := by
  simp [inMonthb, h, PyDateTime.ltb_self]

/-- C9: on free text holding the URL token `https://instagram.com/bob/`, the
line `IG: carol` and the bare token `dave`, `extract_ig_usernames` returns
exactly the usernames bob, carol and dave, in order, with no extras. -/
theorem extract_ig_usernames_example :
    extract_ig_usernames "https://instagram.com/bob/\nIG: carol\ndave" =
      ["bob", "carol", "dave"] := by decide

/-- C10: `count_posts_for_month` returns a count equal to the length of the
returned link list; the links are the canonical permalinks of the matching
posts in fetch order; and every link has the form
`https://www.instagram.com/p/<code>/`. -/
theorem count_posts_for_month_invariant (year month : Nat)
    (posts : List Post) :
    (count_posts_for_month year month posts).1 =
      (count_posts_for_month year month posts).2.length
    ∧ (count_posts_for_month year month posts).2 =
        (posts.filter (inMonthb year month)).map postLink
    ∧ ∀ link ∈ (count_posts_for_month year month posts).2,
        ∃ c, link = "https://www.instagram.com/p/" ++ c ++ "/" := by
  refine ⟨?_, ?_, ?_⟩
  · simp [count_posts_for_month_eq_filter]
  · simp [count_posts_for_month_eq_filter]
  · intro link hlink
    rw [count_posts_for_month_eq_filter] at hlink
    obtain ⟨p, _, hp⟩ := List.mem_map.mp hlink
    exact ⟨p.code, hp.symm⟩

/-- C6: `count_posts_for_month` counts exactly the posts whose naive
timestamp `t` satisfies `start_of_month <= t < start_of_next_month`, and a
post taken exactly at the first instant of a month is counted in that month
and not in the previous one. -/
theorem count_posts_for_month_boundary (year month : Nat) (posts : List Post)
    (p : Post) (hm1 : 1 ≤ month) (hm2 : month ≤ 12) (hy : 1 ≤ year)
    (hp : postDate p = pyDate year month 1) :
    (count_posts_for_month year month posts).1 =
      (posts.filter (fun q =>
        (startDate year month).leb (postDate q) &&
          (postDate q).ltb (endDate year month))).length
    ∧ inMonthb year month p = true
    ∧ (month = 1 → inMonthb (year - 1) 12 p = false)
    ∧ (2 ≤ month → inMonthb year (month - 1) p = false) := by
  refine ⟨?_, ?_, ?_, ?_⟩
  · rw [count_posts_for_month_eq_filter]; rfl
  · simp [inMonthb, startDate, hp, PyDateTime.leb_self, pyDate_ltb_endDate]
  · intro h1
    apply inMonthb_false_of_eq_endDate
    have h12 : ¬ (12 < 12) := by omega
    rw [hp, h1, endDate, if_neg h12, Nat.sub_add_cancel hy]
  · intro h2
    apply inMonthb_false_of_eq_endDate
    have hlt : month - 1 < 12 := by omega
    rw [hp, endDate, if_pos hlt, Nat.sub_add_cancel (by omega : 1 ≤ month)]

/-- C6 witness: a post taken at the first instant of March 2024 is counted in
March 2024 and not in February 2024. -/
theorem count_posts_for_month_boundary_witness :
    inMonthb 2024 3 ⟨pyDate 2024 3 1, false, "c"⟩ = true
    ∧ inMonthb 2024 2 ⟨pyDate 2024 3 1, false, "c"⟩ = false :=
  ⟨(count_posts_for_month_boundary 2024 3 [] ⟨pyDate 2024 3 1, false, "c"⟩
      (by decide) (by decide) (by decide) rfl).2.1,
   (count_posts_for_month_boundary 2024 3 [] ⟨pyDate 2024 3 1, false, "c"⟩
      (by decide) (by decide) (by decide) rfl).2.2.2 (by decide)⟩

/-- C4: on `BadPassword`, with a relogin already attempted the policy freezes
the account for 7 days (604800 s) and raises the terminal
`ReloginAttemptExceeded`; on the first attempt it rebuilds the client
settings and returns without raising. -/
theorem handle_exception_badPassword (st : ClientState) (m : String) :
    (st.relogin_attempt > 0 →
      handle_exception st (.badPassword m) =
        ⟨[.setProxy], [("Manual login required", 604800)],
          .error (.reloginAttemptExceeded m)⟩)
    ∧ (st.relogin_attempt = 0 →
      handle_exception st (.badPassword m) =
        ⟨[.setProxy, .rebuildSettings, .updateSettings], [], .ok ()⟩) := by
  constructor <;> intro h <;> simp [handle_exception, h, freezeDuration]

/-- C4 witness: both branches evaluated at a concrete client state. -/
theorem handle_exception_badPassword_witness :
    handle_exception ⟨1, none, "", .ok ()⟩ (.badPassword "x") =
      ⟨[.setProxy], [("Manual login required", 604800)],
        .error (.reloginAttemptExceeded "x")⟩
    ∧ handle_exception ⟨0, none, "", .ok ()⟩ (.badPassword "x") =
      ⟨[.setProxy, .rebuildSettings, .updateSettings], [], .ok ()⟩ :=
  ⟨(handle_exception_badPassword ⟨1, none, "", .ok ()⟩ "x").1 (by decide),
   (handle_exception_badPassword ⟨0, none, "", .ok ()⟩ "x").2 rfl⟩

/-- C1 counterexample: on `PleaseWaitFewMinutes` the policy does freeze for
1 hour, but it does not return to the caller — the trailing `raise e` of
`handle_exception` re-raises the exception, so the handling is terminal. -/
theorem handle_exception_pleaseWait_counterexample :
    (handle_exception ⟨0, none, "", .ok ()⟩
        (.pleaseWaitFewMinutes "wait")).freezes = [("wait", 3600)]
    ∧ (handle_exception ⟨0, none, "", .ok ()⟩
        (.pleaseWaitFewMinutes "wait")).outcome =
      .error (.pleaseWaitFewMinutes "wait") := by decide

/-- C1 amended: for `PleaseWaitFewMinutes` the policy freezes for 1 hour
(3600 s) and then re-raises; for `FeedbackRequired` it always re-raises, and
(following the source's if/elif order on the feedback message) it first
freezes for 12 hours (43200 s) when the message contains `This action was
blocked. Please try again later`, for 12 hours when it instead contains
`We restrict certain activity to protect our community`, and indefinitely
(recorded duration 0, from the bare `freeze(message)` call) when it instead
contains `Your account has been temporarily blocked`. -/
theorem handle_exception_wait_feedback (st : ClientState) (m : String) :
    ((handle_exception st (.pleaseWaitFewMinutes m)).freezes = [(m, 3600)]
      ∧ (handle_exception st (.pleaseWaitFewMinutes m)).outcome =
          .error (.pleaseWaitFewMinutes m))
    ∧ ((handle_exception st (.feedbackRequired m)).outcome =
          .error (.feedbackRequired m)
      ∧ (strContains st.feedback_message
            "This action was blocked. Please try again later" = true →
          (handle_exception st (.feedbackRequired m)).freezes =
            [(st.feedback_message, 43200)])
      ∧ (strContains st.feedback_message
            "This action was blocked. Please try again later" = false →
          strContains st.feedback_message
            "We restrict certain activity to protect our community" = true →
          (handle_exception st (.feedbackRequired m)).freezes =
            [(st.feedback_message, 43200)])
      ∧ (strContains st.feedback_message
            "This action was blocked. Please try again later" = false →
          strContains st.feedback_message
            "We restrict certain activity to protect our community" = false →
          strContains st.feedback_message
            "Your account has been temporarily blocked" = true →
          (handle_exception st (.feedbackRequired m)).freezes =
            [(st.feedback_message, 0)])) := by
  refine ⟨⟨?_, ?_⟩, ?_, ?_, ?_, ?_⟩
  · simp [handle_exception, freezeDuration]
  · simp [handle_exception]
  · simp only [handle_exception]
    split_ifs <;> rfl
  · intro h
    simp [handle_exception, h, freezeDuration]
  · intro h1 h2
    simp [handle_exception, h1, h2, freezeDuration]
  · intro h1 h2 h3
    simp [handle_exception, h1, h2, h3, freezeDuration]

/-- C1 amended witness: the wait exception and all three feedback messages,
each at a concrete client state. -/
theorem handle_exception_wait_feedback_witness :
    (handle_exception ⟨0, none, "", .ok ()⟩
        (.pleaseWaitFewMinutes "w")).freezes = [("w", 3600)]
    ∧ (handle_exception
        ⟨0, none, "This action was blocked. Please try again later", .ok ()⟩
        (.feedbackRequired "fb")).freezes =
      [("This action was blocked. Please try again later", 43200)]
    ∧ (handle_exception
        ⟨0, none, "We restrict certain activity to protect our community",
          .ok ()⟩
        (.feedbackRequired "fb")).freezes =
      [("We restrict certain activity to protect our community", 43200)]
    ∧ (handle_exception
        ⟨0, none, "Your account has been temporarily blocked", .ok ()⟩
        (.feedbackRequired "fb")).freezes =
      [("Your account has been temporarily blocked", 0)] :=
  ⟨(handle_exception_wait_feedback ⟨0, none, "", .ok ()⟩ "w").1.1,
   (handle_exception_wait_feedback
      ⟨0, none, "This action was blocked. Please try again later", .ok ()⟩
      "fb").2.2.1 (by decide),
   (handle_exception_wait_feedback
      ⟨0, none, "We restrict certain activity to protect our community",
        .ok ()⟩
      "fb").2.2.2.1 (by decide) (by decide),
   (handle_exception_wait_feedback
      ⟨0, none, "Your account has been temporarily blocked", .ok ()⟩
      "fb").2.2.2.2 (by decide) (by decide) (by decide)⟩

/-- C7: when the user id lookup raises `UserNotFound`, `manual_search`
returns exactly one row for the target: Post Count 0, Year and Month `-`,
Links `User not found`. -/
theorem manual_search_userNotFound (username : String) (client : PyClient)
    (sy sm ey em : Nat) (m : String)
    (h : client.user_id_from_username username = .error (.userNotFound m)) :
    manual_search username sy sm ey em client =
      .ok [⟨username, 0, "-", "-", "User not found"⟩] := by
  simp [manual_search, h, dispatchExc, userNotFoundRow]

/-- C7 witness: a concrete client raising `UserNotFound` for alice. -/
theorem manual_search_userNotFound_witness :
    manual_search "alice" 2024 1 2024 2
        ⟨fun _ => .error (.userNotFound "nf"), fun _ _ => .ok [],
          ⟨0, none, "", .ok ()⟩⟩ =
      .ok [⟨"alice", 0, "-", "-", "User not found"⟩] :=
  manual_search_userNotFound "alice" _ 2024 1 2024 2 "nf" rfl

/-- C3: the run-end eviction guard `is_session_valid(session_file) and
age >= SESSION_DURATION` is a contradiction — validity already demands
`age < SESSION_DURATION` — so the check never removes any session file, in
particular not an expired one. -/
theorem runEndRemoves_never (now : ℚ) (mtime : Option ℚ) :
    runEndRemoves now mtime = false := by
  cases mtime with
  | none => rfl
  | some t =>
    simp only [runEndRemoves, is_session_valid, Bool.and_eq_false_iff,
      decide_eq_false_iff_not, not_lt, not_le]
    rcases lt_or_le (now - t) SESSION_DURATION with h | h
    · right; exact h
    · left; exact h

/-- C8: `is_session_valid` is true exactly when the session file exists and
its age is strictly below `SESSION_DURATION`; and with an expired file plus
full credentials and the login button pressed, the session-initialization
block takes the fresh-login path rather than the session restore. -/
theorem is_session_valid_spec (now : ℚ) (mtime : Option ℚ)
    (username password : String) (login_button : Bool) :
    (is_session_valid now mtime = true ↔
      ∃ t, mtime = some t ∧ now - t < SESSION_DURATION)
    ∧ (∀ t, mtime = some t → now - t ≥ SESSION_DURATION →
        username ≠ "" → password ≠ "" → login_button = true →
        sessionInit false username password login_button now mtime =
          .freshLogin) := by
  constructor
  · cases mtime with
    | none => simp [is_session_valid]
    | some t => simp [is_session_valid]
  · intro t ht hage hu hpw hb
    subst ht
    have hv : is_session_valid now (some t) = false := by
      simp [is_session_valid, not_lt.mpr hage]
    simp [sessionInit, hv, hu, hpw, hb]

/-- C8 witness: a file exactly `SESSION_DURATION` old with credentials
supplied takes the fresh-login path. -/
theorem is_session_valid_spec_witness :
    sessionInit false "user" "pass" true 86400 (some 0) = .freshLogin :=
  (is_session_valid_spec 86400 (some 0) "user" "pass" true).2 0 rfl
    (by norm_num [SESSION_DURATION]) (by decide) (by decide) rfl

theorem runMonths_none_length (username : String) (uid : Nat)
    (client : PyClient) (l : List (Nat × Nat))
    (h : (runMonths username uid client l).2 = none) :
    (runMonths username uid client l).1.length = l.length := by
  induction l with
  | nil => simp [runMonths]
  | cons ym rest ih =>
    obtain ⟨y, m⟩ := ym
    cases hm : client.user_medias uid 1000 with
    | error e => simp [runMonths, hm] at h
    | ok posts =>
      simp only [runMonths, hm] at h ⊢
      simpa using ih h

theorem pyRange_cons (a b : Nat) (h : a < b) :
    pyRange a b = a :: pyRange (a + 1) b := by
  unfold pyRange
  rw [show b - a = (b - (a + 1)) + 1 by omega]
  rfl

theorem monthsFor_single (sy sm em : Nat) :
    monthsFor sy sm sy em = (pyRange sm (em + 1)).map (fun m => (sy, m)) := by
  have h1 : pyRange sy (sy + 1) = [sy] := by
    unfold pyRange
    rw [show sy + 1 - sy = 1 by omega]
    rfl
  simp [monthsFor, h1]

theorem monthsFor_length_aux (d : Nat) :
    ∀ sy sm em : Nat, sm ≤ 13 →
      (monthsFor sy sm (sy + d) em).length = 12 * d + (em + 1) - sm := by
  induction d with
  | zero =>
    intro sy sm em _
    rw [Nat.add_zero, monthsFor_single]
    simp [pyRange, List.length_range']
  | succ d ih =>
    intro sy sm em hsm
    have hcons : pyRange sy (sy + (d + 1) + 1) =
        sy :: pyRange (sy + 1) (sy + (d + 1) + 1) := pyRange_cons _ _ (by omega)
    have hne : sy ≠ sy + (d + 1) := by omega
    have htail : (pyRange (sy + 1) (sy + (d + 1) + 1)).flatMap (fun year =>
        (pyRange (if year = sy then sm else 1)
            (if year = sy + (d + 1) then em + 1 else 13)).map
          (fun month => (year, month))) = monthsFor (sy + 1) 1 ((sy + 1) + d) em := by
      unfold monthsFor
      rw [show (sy + 1) + d = sy + (d + 1) by omega]
      apply List.flatMap_congr
      intro year hyear
      have hmem : sy + 1 ≤ year := by
        have := (List.mem_range'_1.mp hyear).1
        simpa [pyRange] using this
      have hys : ¬ (year = sy) := by omega
      simp [hys]
    unfold monthsFor
    rw [hcons, List.flatMap_cons, List.length_append, htail,
      ih (sy + 1) 1 em (by omega)]
    have hhead : ((pyRange (if sy = sy then sm else 1)
        (if sy = sy + (d + 1) then em + 1 else 13)).map
          (fun month => ((sy : Nat), month))).length = 13 - sm := by
      simp [hne, pyRange, List.length_range']
    rw [hhead]
    omega

/-- C5: when a target is processed with no exception, `manual_search` emits
one row per calendar month in the inclusive range, i.e. exactly
`12 * (end_year - start_year) + end_month - start_month + 1` rows, across
year boundaries included. -/
theorem manual_search_row_count (client : PyClient) (username : String)
    (uid : Nat) (sy sm ey em : Nat)
    (hid : client.user_id_from_username username = .ok uid)
    (hexc : (runMonths username uid client (monthsFor sy sm ey em)).2 = none)
    (h1 : sy ≤ ey) (h2 : 1 ≤ sm) (h3 : sm ≤ 12) (h4 : 1 ≤ em) (h5 : em ≤ 12)
    (h6 : sy = ey → sm ≤ em) :
    ∃ rows, manual_search username sy sm ey em client = .ok rows ∧
      (rows.length : ℤ) =
        12 * ((ey : ℤ) - (sy : ℤ)) + (em : ℤ) - (sm : ℤ) + 1 := by
  refine ⟨(runMonths username uid client (monthsFor sy sm ey em)).1, ?_, ?_⟩
  · simp only [manual_search, hid]
    rw [hexc]
    rfl
  · have hlen := runMonths_none_length username uid client
      (monthsFor sy sm ey em) hexc
    have hm : (monthsFor sy sm ey em).length = 12 * (ey - sy) + (em + 1) - sm := by
      have := monthsFor_length_aux (ey - sy) sy sm em (by omega)
      rwa [Nat.add_sub_cancel' h1] at this
    rw [hlen, hm]
    rcases Nat.lt_or_ge sy ey with hlt | hge
    · omega
    · have hey : sy = ey := by omega
      have := h6 hey
      omega

/-- C5 witness: a three-month range (January to March 2024) on a client that
returns an empty post page yields three rows. -/
theorem manual_search_row_count_witness :
    ∃ rows, manual_search "alice" 2024 1 2024 3
        ⟨fun _ => .ok 7, fun _ _ => .ok [], ⟨0, none, "", .ok ()⟩⟩ =
      .ok rows ∧ (rows.length : ℤ) =
        12 * ((2024 : ℤ) - (2024 : ℤ)) + (3 : ℤ) - (1 : ℤ) + 1 :=
  manual_search_row_count
    ⟨fun _ => .ok 7, fun _ _ => .ok [], ⟨0, none, "", .ok ()⟩⟩ "alice" 7
    2024 1 2024 3 rfl (by decide) (by decide) (by decide) (by decide)
    (by decide) (by decide) (fun _ => by decide)

theorem dispatchExc_not_userNotFound (username : String) (st : ClientState)
    (rows : List Row) (e : PyExc) (hn : notUserNotFound e = true) :
    dispatchExc username st rows (some e) =
      match (handle_exception st e).outcome with
      | .ok _ => .ok (rows ++ [errorRow username])
      | .error e2 => .error e2 := by
  cases e
  case userNotFound m => simp [notUserNotFound] at hn
  all_goals rfl

/-- C2 counterexample: a generic error (`Exception` that the failure policy
does not swallow) during target processing is re-raised by the policy, so no
placeholder error-row is produced and the batch loop aborts instead of
continuing with the second target. -/
theorem process_all_abort_counterexample :
    process_all ["alice", "bob"] 2024 1 2024 1
        ⟨fun _ => .ok 7, fun _ _ => .error (.other "boom"),
          ⟨0, none, "", .ok ()⟩⟩ =
      .error (.other "boom") := by decide

/-- C2 amended: an error other than `UserNotFound` raised while processing a
target is routed to the failure policy; if the policy returns without
raising, the placeholder error-row is appended and the batch continues with
the remaining targets, but if the policy re-raises (as it does for every
exception kind it does not explicitly recover from), the exception
propagates and the batch aborts. -/
theorem manual_search_error_routing (client : PyClient) (username : String)
    (uid : Nat) (sy sm ey em : Nat) (e : PyExc) (rest : List String)
    (hid : client.user_id_from_username username = .ok uid)
    (hm : client.user_medias uid 1000 = .error e)
    (hn : notUserNotFound e = true)
    (hne : monthsFor sy sm ey em ≠ []) :
    (manual_search username sy sm ey em client =
      match (handle_exception client.state e).outcome with
      | .ok _ => .ok [errorRow username]
      | .error e2 => .error e2)
    ∧ (process_all (username :: rest) sy sm ey em client =
      match (handle_exception client.state e).outcome with
      | .ok _ =>
        match processGo sy sm ey em client rest [username] with
        | .error e3 => .error e3
        | .ok more => .ok (errorRow username :: more)
      | .error e2 => .error e2) := by
  obtain ⟨ym, l, hl⟩ : ∃ ym l, monthsFor sy sm ey em = ym :: l := by
    cases hmf : monthsFor sy sm ey em with
    | nil => exact absurd hmf hne
    | cons a l => exact ⟨a, l, rfl⟩
  obtain ⟨y, mth⟩ := ym
  have hrun : runMonths username uid client (monthsFor sy sm ey em) =
      ([], some e) := by
    rw [hl]; simp [runMonths, hm]
  have hms : manual_search username sy sm ey em client =
      match (handle_exception client.state e).outcome with
      | .ok _ => .ok [errorRow username]
      | .error e2 => .error e2 := by
    have := dispatchExc_not_userNotFound username client.state [] e hn
    simp only [manual_search, hid]
    rw [hrun]
    simpa using this
  refine ⟨hms, ?_⟩
  show processGo sy sm ey em client (username :: rest) [] = _
  cases ho : (handle_exception client.state e).outcome with
  | ok u =>
    have h1 : manual_search username sy sm ey em client =
        .ok [errorRow username] := by
      rw [hms, ho]
    simp only [processGo, List.not_mem_nil, if_false, h1]
    cases hrest : processGo sy sm ey em client rest [username] with
    | error e3 => simp
    | ok more => simp
  | error e2 =>
    have h1 : manual_search username sy sm ey em client = .error e2 := by
      rw [hms, ho]
    simp only [processGo, List.not_mem_nil, if_false, h1]

/-- C2 amended witness: with a client whose fetch raises a generic error the
policy re-raises, `manual_search` propagates the error and the batch aborts. -/
theorem manual_search_error_routing_witness :
    manual_search "alice" 2024 1 2024 1
        ⟨fun _ => .ok 7, fun _ _ => .error (.other "x"),
          ⟨0, none, "", .ok ()⟩⟩ =
      .error (.other "x")
    ∧ process_all ["alice"] 2024 1 2024 1
        ⟨fun _ => .ok 7, fun _ _ => .error (.other "x"),
          ⟨0, none, "", .ok ()⟩⟩ =
      .error (.other "x") :=
  manual_search_error_routing
    ⟨fun _ => .ok 7, fun _ _ => .error (.other "x"), ⟨0, none, "", .ok ()⟩⟩
    "alice" 7 2024 1 2024 1 (.other "x") [] rfl rfl (by decide) (by decide)
